import Mathlib

/-!
# Verification of the docker-run-app supervisor (src/main.go)

Shallow embedding of the escalation engine (`stopProcess`), the supervisor
race logic (`runCommand`), and the flag parser (`eatFlag`, `parseFlags`,
`getOr`, and the command extraction in `main`).

Concurrency and real time are abstracted as follows: each delivery attempt of
`stopProcess` races `p.Signal(sigs[0])` against a fresh `time.After(SIG_TIMEOUT)`
window.  The observable outcome of one such race is one of three events
(`AttemptResult`): the signal call returned `nil` before the timeout
(`delivered`), the signal call returned a non-nil error before the timeout
(`deliverErr`), or the timeout fired first (`timedOut`).  A run of the engine
is driven by an oracle `Nat → AttemptResult` giving the outcome of the k-th
attempt; each recursive call shifts the oracle, so every attempt gets its own
independent window.  `p.Kill()` either succeeds or fails (`killOk : Bool`).
-/

set_option autoImplicit false

namespace DockerRunApp

/-- The signals occurring in src/main.go: `syscall.SIGINT`, `syscall.SIGTERM`,
`syscall.SIGHUP` (and `SIGKILL` as the signal behind `p.Kill()`). -/
inductive Signal
  | SIGINT
  | SIGTERM
  | SIGHUP
  | SIGKILL
deriving DecidableEq, Repr

/-- The `AppError` constants of src/main.go lines 45-54 (`iota` values 0..7). -/
inductive AppError
  | OK
  | AppStoppedWithError
  | CannotStartApp
  | FailedToKillApp
  | MissingArgument
  | InsufficientSignalError
  | InvalidCommand
  | BadFlag
deriving DecidableEq, Repr

/-- The integer value of each `AppError` constant (the `iota` numbering),
used as the process exit code by `os.Exit(int(err))`. -/
def AppError.code : AppError → Nat
  | .OK => 0
  | .AppStoppedWithError => 1
  | .CannotStartApp => 2
  | .FailedToKillApp => 3
  | .MissingArgument => 4
  | .InsufficientSignalError => 5
  | .InvalidCommand => 6
  | .BadFlag => 7

/-- The `FlagError` constants of src/main.go lines 56-60 (`iota` values
0..2). -/
inductive FlagError
  | FlagFound
  | FlagNotFound
  | FlagHasTooFewParams
deriving DecidableEq, Repr

/-- Outcome of racing one `p.Signal(sigs[0])` call against a fresh
`time.After(SIG_TIMEOUT)` window (src/main.go lines 316-332):
`delivered` = the call returned `nil` within the window, `deliverErr` = the
call returned a non-nil error within the window, `timedOut` = the timeout
fired first. -/
inductive AttemptResult
  | delivered
  | deliverErr
  | timedOut
deriving DecidableEq, Repr

/-- Result of `stopProcess`: `ret s e` is a normal return of the pair
`(os.Signal, AppError)` (with `s = none` for a `nil` signal); `fatal` is the
abnormal termination performed by `log.Fatal` (which calls `os.Exit(1)`). -/
inductive StopResult
  | ret : Option Signal → AppError → StopResult
  | fatal : StopResult
deriving DecidableEq, Repr

/-- `SIG_TIMEOUT` (src/main.go line 42), in seconds. -/
def SIG_TIMEOUT : Nat := 2

/-- Embedding of `stopProcess` (src/main.go lines 308-333).

```go
func stopProcess(p *os.Process, sigs ...os.Signal) (os.Signal, AppError) {
    if len(sigs) == 0 {
        if err := p.Kill(); err != nil {
            log.Fatal("Failed to kill app: ", err)
        }
        return nil, FailedToKillApp
    }
    ...
    select {
    case err := <-c:
        if err == nil { return sigs[0], OK } else { return stopProcess(p, sigs[1:]...) }
    case _ = <-time.After(SIG_TIMEOUT):
        return stopProcess(p, sigs[1:]...)
    }
}
```

`oracle k` is the outcome of the race for the k-th attempt; the recursive
call shifts the oracle so the next attempt reads a fresh, independent
outcome.  `killOk` tells whether `p.Kill()` returns `nil`. -/
def stopProcess (sigs : List Signal) (oracle : Nat → AttemptResult)
    (killOk : Bool) : StopResult :=
  match sigs with
  | [] =>
    if killOk then StopResult.ret none AppError.FailedToKillApp
    else StopResult.fatal
  | s :: rest =>
    match oracle 0 with
    | AttemptResult.delivered => StopResult.ret (some s) AppError.OK
    | AttemptResult.deliverErr => stopProcess rest (fun n => oracle (n + 1)) killOk
    | AttemptResult.timedOut => stopProcess rest (fun n => oracle (n + 1)) killOk

/-- Number of attempts `stopProcess` performs: one per delivered/failed/timed
out signal it consumes, plus one for the final `p.Kill()` when the list is
exhausted. -/
def stopAttempts (sigs : List Signal) (oracle : Nat → AttemptResult) : Nat :=
  match sigs with
  | [] => 1
  | _ :: rest =>
    match oracle 0 with
    | AttemptResult.delivered => 1
    | AttemptResult.deliverErr => 1 + stopAttempts rest (fun n => oracle (n + 1))
    | AttemptResult.timedOut => 1 + stopAttempts rest (fun n => oracle (n + 1))

/-- The argument list the supervisor passes to the escalation engine
(src/main.go line 279):
`stopProcess(cmd.Process, sig, syscall.SIGTERM, syscall.SIGHUP)`. -/
def stopPlan (sig : Signal) : List Signal :=
  [sig, Signal.SIGTERM, Signal.SIGHUP]

/-- The first event observed by the `select` in `runCommand`
(src/main.go lines 267-297): either the child exited on its own with the
given exit code (`cmd.Wait()` returns `nil` exactly when the code is 0), or
a termination signal arrived from the environment. -/
inductive RunEvent
  | childExited : Nat → RunEvent
  | signalReceived : Signal → RunEvent
deriving DecidableEq, Repr

/-- Result of `runCommand`: a normal return of an `AppError` (the caller then
runs cleanup and `os.Exit(int(err))`), or the abnormal termination performed
by `log.Fatal` (`os.Exit(1)`, bypassing all cleanup). -/
inductive RunResult
  | exit : AppError → RunResult
  | fatal : RunResult
deriving DecidableEq, Repr

/-- Embedding of `runCommand` (src/main.go lines 229-300).

`startOk` tells whether `cmd.Start()` succeeded.  On start failure the
goroutine executes `log.Fatal(err)`, which exits the whole process with
status 1; the following `done <- err; return` is dead code, so the `select`
never observes the failure and `CannotStartApp` is never produced.

On `startOk`, the `select` observes `ev` first:
- child exited: `err == nil` (exit code 0) gives `OK`, otherwise
  `AppStoppedWithError`;
- signal received: `stopProcess(p, sig, SIGTERM, SIGHUP)` runs; a non-`OK`
  error is returned as-is; otherwise the accepted signal is compared with
  `sig` and with `syscall.SIGINT` (`switch sigSuccess`), anything else gives
  `InsufficientSignalError`. -/
def runCommand (startOk : Bool) (ev : RunEvent) (oracle : Nat → AttemptResult)
    (killOk : Bool) : RunResult :=
  if !startOk then RunResult.fatal
  else
    match ev with
    | RunEvent.childExited code =>
      if code = 0 then RunResult.exit AppError.OK
      else RunResult.exit AppError.AppStoppedWithError
    | RunEvent.signalReceived sig =>
      match stopProcess (stopPlan sig) oracle killOk with
      | StopResult.fatal => RunResult.fatal
      | StopResult.ret sigSuccess e =>
        if e ≠ AppError.OK then RunResult.exit e
        else if sigSuccess = some sig then RunResult.exit AppError.OK
        else if sigSuccess = some Signal.SIGINT then RunResult.exit AppError.OK
        else RunResult.exit AppError.InsufficientSignalError

/-- `p.getOr(index, def)` (src/main.go lines 379-385): return `(*p)[index]`
when `0 <= index < len(*p)`, the default otherwise.  Go `int` indices are
modelled as `Int`. -/
def getOr (p : List String) (index : Int) (d : String) : String :=
  if h : index < 0 ∨ (p.length : Int) ≤ index then d
  else p.get ⟨index.toNat, by omega⟩

/-- The `hasFlag` closure inside `eatFlag` (src/main.go lines 120-127): does
`arg` equal one of the accepted spellings of the flag? -/
def hasFlag (flags : List String) (arg : String) : Bool :=
  flags.any (fun f => f == arg)

/-- `strings.HasPrefix(arg, "-")`: the argument starts with a dash.  The
prefix is the single ASCII byte `-`, so this is exactly "first character is
a dash". -/
def hasDash (s : String) : Bool :=
  match s.data with
  | [] => false
  | c :: _ => c = '-'

/-- The trailing copy loop of `eatFlag` (src/main.go lines 178-181):
`for ; a < len(args); a++ { remaining[b] = args[a]; b++ }`, with `src` the
suffix `args[a:]` still to copy.  All writes are in bounds (`b` never
overtakes the write position), so Go's `remaining[b] =` never panics here
and `List.set` models it exactly. -/
def copyRest (src : List String) (b : Nat) (remaining : List String) :
    List String :=
  match src with
  | [] => remaining
  | x :: xs => copyRest xs (b + 1) (remaining.set b x)

/-- Outcome of the parameter-eating loop of `eatFlag` (src/main.go lines
156-165): `ok params leftover` falls out of the loop with the filled
parameter array and the unconsumed argument suffix; `tooFew` is the early
`return` on a dash-prefixed argument; `panic` is the runtime
index-out-of-range fault on `params[c] =` when `c >= len(params)`. -/
inductive ParamsResult
  | ok : List String → List String → ParamsResult
  | tooFew : ParamsResult
  | panic : ParamsResult
deriving DecidableEq, Repr

/-- The inner loop of `eatFlag` (src/main.go lines 156-165):

```go
for c := 0; c < availCount; c++ {
    if !strings.HasPrefix(args[a], "-") {
        params[c] = args[a]
        a++
    } else {
        params, remaining, err = ParamList{}, args, FlagHasTooFewParams
        return
    }
}
```

The loop counter runs `c = 0 .. availCount-1`; `n = availCount - c` is the
number of iterations left, and `suffix` is `args[a:]` (the loop reads
`args[a]` and advances `a` exactly when it eats a parameter).  Note the
bound is `availCount`, NOT `paramCount`: the write `params[c] = args[a]`
is guarded only by the dash test, so `c` can reach `len(params)` and the Go
code panics with an index-out-of-range fault (`panic` below). -/
def eatParamsLoop (suffix params : List String) (c n : Nat) : ParamsResult :=
  match n with
  | 0 => ParamsResult.ok params suffix
  | Nat.succ m =>
    match suffix with
    | [] => ParamsResult.panic
    | arg :: rest =>
      if hasDash arg then ParamsResult.tooFew
      else if c < params.length then
        eatParamsLoop rest (params.set c arg) (c + 1) m
      else ParamsResult.panic

/-- The `ArgLoop` of `eatFlag` (src/main.go lines 138-183).  `suffix` is
`args[a:]`, `b` the write index into `remaining` (which Go allocated as
`make([]string, len(args))`, i.e. `args.length` zero-value strings, and
never trims — unwritten slots stay `""`).

- `"--"`: stop processing flags; the marker itself is dropped and the rest
  is copied (lines 140-143 and 178-181);
- a recognised flag: check `availCount < paramCount`, then run the
  parameter loop; on success copy whatever the loop left unconsumed;
- anything else is copied to `remaining[b]` and the scan continues;
- falling off the end returns `(ParamList{}, remaining, FlagNotFound)`.

`none` models a Go runtime panic. -/
def argLoop (args flags : List String) (paramCount : Nat)
    (suffix : List String) (b : Nat) (remaining : List String) :
    Option (List String × List String × FlagError) :=
  match suffix with
  | [] => some ([], remaining, FlagError.FlagNotFound)
  | arg :: restArgs =>
    if arg = "--" then
      some ([], copyRest restArgs b remaining, FlagError.FlagNotFound)
    else if hasFlag flags arg then
      let availCount := restArgs.length
      if availCount < paramCount then
        some ([], args, FlagError.FlagHasTooFewParams)
      else
        match eatParamsLoop restArgs (List.replicate paramCount "") 0 availCount with
        | ParamsResult.tooFew => some ([], args, FlagError.FlagHasTooFewParams)
        | ParamsResult.panic => none
        | ParamsResult.ok params leftover =>
          some (params, copyRest leftover b remaining, FlagError.FlagFound)
    else
      argLoop args flags paramCount restArgs (b + 1) (remaining.set b arg)

/-- `eatFlag` (src/main.go lines 115-184): search the argument array for one
flag and its parameters; return `(params, remaining, err)`, or `none` for a
runtime panic. -/
def eatFlag (args flags : List String) (paramCount : Nat) :
    Option (List String × List String × FlagError) :=
  if args.length = 0 then some ([], args, FlagError.FlagNotFound)
  else argLoop args flags paramCount args 0 (List.replicate args.length "")

/-- Result of `parseFlags` (src/main.go lines 193-227): an `os.Exit` taken
inside the function (for `-V`, `-h`, or a malformed `--init-log`), a normal
return carrying `options["init-log"]` and the remaining arguments, or a
runtime panic propagated from `eatFlag`. -/
inductive ParseResult
  | exitEarly : AppError → ParseResult
  | ok : String → List String → ParseResult
  | panic : ParseResult
deriving DecidableEq, Repr

/-- `parseFlags` (src/main.go lines 193-227): three `eatFlag` passes —
`-V` or `--version` (exit 0 when found), `-h` or `--help` (exit 0 when
found), then
`--init-log` with one parameter (exit `BadFlag` on `FlagHasTooFewParams`,
otherwise `options["init-log"] = params.getOr(0, "")`). -/
def parseFlags (args : List String) : ParseResult :=
  match eatFlag args ["-V", "--version"] 0 with
  | none => ParseResult.panic
  | some (_, rem1, e1) =>
    if e1 = FlagError.FlagFound then ParseResult.exitEarly AppError.OK
    else
      match eatFlag rem1 ["-h", "--help"] 0 with
      | none => ParseResult.panic
      | some (_, rem2, e2) =>
        if e2 = FlagError.FlagFound then ParseResult.exitEarly AppError.OK
        else
          match eatFlag rem2 ["--init-log"] 1 with
          | none => ParseResult.panic
          | some (params, rem3, e3) =>
            if e3 = FlagError.FlagHasTooFewParams then
              ParseResult.exitEarly AppError.BadFlag
            else ParseResult.ok (getOr params 0 "") rem3

/-- What `main` (src/main.go lines 66-107) does with the parsed arguments:
exit early (version/help/`BadFlag`), report `MissingArgument` when nothing
is left, or run `exec.Command(args[0], args[1:]...)`. A panic in `eatFlag`
propagates. -/
inductive MainResult
  | exitEarly : AppError → MainResult
  | missing : MainResult
  | run : String → List String → MainResult
  | panic : MainResult
deriving DecidableEq, Repr

/-- Command extraction in `main` (src/main.go lines 75-99): `parseFlags`,
then `cmd := args[0]` and the rest of `args` verbatim as the child's
argument list. -/
def mainCommand (argv : List String) : MainResult :=
  match parseFlags argv with
  | ParseResult.panic => MainResult.panic
  | ParseResult.exitEarly e => MainResult.exitEarly e
  | ParseResult.ok _ args =>
    match args with
    | [] => MainResult.missing
    | cmd :: rest => MainResult.run cmd rest

end DockerRunApp

namespace DockerRunApp

/-- C1: one escalation step of `stopProcess` on a non-empty sequence: if the
head delivery is acknowledged without error within the timeout window the
result is `(head, OK)`; on a delivery error or on timeout it recurses on the
tail with the shifted oracle (a fresh independent window). -/
theorem stopProcess_step (s : Signal) (rest : List Signal)
    (oracle : Nat → AttemptResult) (killOk : Bool) :
    (oracle 0 = AttemptResult.delivered →
      stopProcess (s :: rest) oracle killOk = StopResult.ret (some s) AppError.OK) ∧
    (oracle 0 = AttemptResult.deliverErr →
      stopProcess (s :: rest) oracle killOk =
        stopProcess rest (fun n => oracle (n + 1)) killOk) ∧
    (oracle 0 = AttemptResult.timedOut →
      stopProcess (s :: rest) oracle killOk =
        stopProcess rest (fun n => oracle (n + 1)) killOk) := by
  refine ⟨fun h => ?_, fun h => ?_, fun h => ?_⟩ <;>
    simp [stopProcess, h]

/-- Witness for C1: all three branches at concrete inputs. -/
theorem stopProcess_step_witness :
    stopProcess [Signal.SIGINT] (fun _ => AttemptResult.delivered) true =
      StopResult.ret (some Signal.SIGINT) AppError.OK ∧
    stopProcess [Signal.SIGINT, Signal.SIGTERM] (fun _ => AttemptResult.deliverErr) true =
      stopProcess [Signal.SIGTERM] (fun _ => AttemptResult.deliverErr) true ∧
    stopProcess [Signal.SIGINT, Signal.SIGTERM] (fun _ => AttemptResult.timedOut) true =
      stopProcess [Signal.SIGTERM] (fun _ => AttemptResult.timedOut) true :=
  ⟨(stopProcess_step Signal.SIGINT [] (fun _ => AttemptResult.delivered) true).1 rfl,
   (stopProcess_step Signal.SIGINT [Signal.SIGTERM]
      (fun _ => AttemptResult.deliverErr) true).2.1 rfl,
   (stopProcess_step Signal.SIGINT [Signal.SIGTERM]
      (fun _ => AttemptResult.timedOut) true).2.2 rfl⟩

/-- C2 counterexample: with an empty signal sequence and a SUCCESSFUL kill
(`killOk = true`, so `p.Kill()` returned `nil`), `stopProcess` still returns
the error code `FailedToKillApp`.  This refutes the claim that a successful
kill yields a distinct `ForceKilled` outcome and that `FailedToKillApp`
arises only when the kill itself fails: the code has no `ForceKilled` value
at all and reports `FailedToKillApp` on the success path. -/
theorem stopProcess_kill_success_counterexample :
    stopProcess [] (fun _ => AttemptResult.timedOut) true =
      StopResult.ret none AppError.FailedToKillApp := rfl

/-- C2 (amended): with an empty sequence `stopProcess` issues the
unconditional kill; if the kill call fails the supervisor terminates
abnormally via `log.Fatal` (no further signals are attempted), and if the
kill call succeeds the function returns normally with no signal reported and
the `FailedToKillApp` error code — there is no separate `ForceKilled`
outcome. -/
theorem stopProcess_empty (oracle : Nat → AttemptResult) (killOk : Bool) :
    stopProcess [] oracle killOk =
      (if killOk then StopResult.ret none AppError.FailedToKillApp
       else StopResult.fatal) := rfl

/-- C3: for every signal sequence, `stopProcess` performs at most
`len(S) + 1` attempts (one delivery attempt per consumed signal plus the
final unconditional kill) and always reaches a terminal outcome: a signal
accepted with `OK`, the kill-succeeded return `(nil, FailedToKillApp)`, or
the abnormal `log.Fatal` exit.  The recursion is structural on the sequence:
each recursive call receives the strictly shorter tail. -/
theorem stopProcess_terminates (sigs : List Signal)
    (oracle : Nat → AttemptResult) (killOk : Bool) :
    stopAttempts sigs oracle ≤ sigs.length + 1 ∧
    ((∃ s, stopProcess sigs oracle killOk = StopResult.ret (some s) AppError.OK) ∨
      stopProcess sigs oracle killOk = StopResult.ret none AppError.FailedToKillApp ∨
      stopProcess sigs oracle killOk = StopResult.fatal) := by
  induction sigs generalizing oracle with
  | nil =>
    constructor
    · simp [stopAttempts]
    · cases killOk <;> simp [stopProcess]
  | cons s rest ih =>
    cases h : oracle 0 with
    | delivered =>
      constructor
      · simp [stopAttempts, h]
      · exact Or.inl ⟨s, by simp [stopProcess, h]⟩
    | deliverErr =>
      have := ih (fun n => oracle (n + 1))
      constructor
      · simp only [stopAttempts, h, List.length_cons]
        omega
      · simpa [stopProcess, h] using this.2
    | timedOut =>
      have := ih (fun n => oracle (n + 1))
      constructor
      · simp only [stopAttempts, h, List.length_cons]
        omega
      · simpa [stopProcess, h] using this.2

/-- C4: when escalation ends with signal `s` accepted (`stopProcess` returns
`(s, OK)`), `runCommand` reports `OK` exactly when `s` is the
originally-received signal or `SIGINT`, and `InsufficientSignalError` for any
other accepted signal. -/
theorem runCommand_signal_status (sig s : Signal) (oracle : Nat → AttemptResult)
    (killOk : Bool)
    (h : stopProcess (stopPlan sig) oracle killOk =
      StopResult.ret (some s) AppError.OK) :
    runCommand true (RunEvent.signalReceived sig) oracle killOk =
      RunResult.exit
        (if s = sig ∨ s = Signal.SIGINT then AppError.OK
         else AppError.InsufficientSignalError) := by
  by_cases h1 : s = sig
  · subst h1
    simp [runCommand, h]
  · by_cases h2 : s = Signal.SIGINT
    · subst h2
      simp [runCommand, h, h1]
    · simp [runCommand, h, h1, h2]

/-- Witness for C4: the child ignores `SIGINT` (timeout) and then accepts the
fallback `SIGTERM`; the run reports `InsufficientSignalError`. -/
theorem runCommand_signal_status_witness :
    runCommand true (RunEvent.signalReceived Signal.SIGINT)
      (fun n => if n = 0 then AttemptResult.timedOut else AttemptResult.delivered)
      true = RunResult.exit AppError.InsufficientSignalError := by
  have h := runCommand_signal_status Signal.SIGINT Signal.SIGTERM
    (fun n => if n = 0 then AttemptResult.timedOut else AttemptResult.delivered)
    true rfl
  simpa using h

/-- C5 counterexample: the plan handed to the escalation engine for a received
`SIGINT` contains a third deliverable signal, `SIGHUP`, which is neither the
received signal nor the `SIGTERM` fallback; in particular the plan is not
`[received, SIGTERM]`.  This refutes the claim that the received signal is
followed by exactly one fixed fallback with no other deliverable signals. -/
theorem stopPlan_counterexample :
    Signal.SIGHUP ∈ stopPlan Signal.SIGINT ∧
    Signal.SIGHUP ≠ Signal.SIGINT ∧
    Signal.SIGHUP ≠ Signal.SIGTERM ∧
    stopPlan Signal.SIGINT ≠ [Signal.SIGINT, Signal.SIGTERM] := by
  decide

/-- C5 (amended): the plan is the received signal, then `SIGTERM`, then
`SIGHUP` — two fixed fallbacks — ending in the implicit forced kill:
the engine delivers them in exactly that order, and exhausting all three
reaches the unconditional-kill step. -/
theorem stopPlan_escalation (sig : Signal) (oracle : Nat → AttemptResult)
    (killOk : Bool) :
    (oracle 0 = AttemptResult.delivered →
      stopProcess (stopPlan sig) oracle killOk =
        StopResult.ret (some sig) AppError.OK) ∧
    (oracle 0 ≠ AttemptResult.delivered → oracle 1 = AttemptResult.delivered →
      stopProcess (stopPlan sig) oracle killOk =
        StopResult.ret (some Signal.SIGTERM) AppError.OK) ∧
    (oracle 0 ≠ AttemptResult.delivered → oracle 1 ≠ AttemptResult.delivered →
      oracle 2 = AttemptResult.delivered →
      stopProcess (stopPlan sig) oracle killOk =
        StopResult.ret (some Signal.SIGHUP) AppError.OK) ∧
    (oracle 0 ≠ AttemptResult.delivered → oracle 1 ≠ AttemptResult.delivered →
      oracle 2 ≠ AttemptResult.delivered →
      stopProcess (stopPlan sig) oracle killOk =
        (if killOk then StopResult.ret none AppError.FailedToKillApp
         else StopResult.fatal)) := by
  refine ⟨fun h0 => ?_, fun h0 h1 => ?_, fun h0 h1 h2 => ?_, fun h0 h1 h2 => ?_⟩ <;>
    cases q0 : oracle 0 <;> cases q1 : oracle 1 <;> cases q2 : oracle 2 <;>
      simp_all [stopProcess, stopPlan]

/-- Witness for C5 (amended): all four stages at concrete oracles with the
received signal `SIGINT`. -/
theorem stopPlan_escalation_witness :
    stopProcess (stopPlan Signal.SIGINT) (fun _ => AttemptResult.delivered) true =
      StopResult.ret (some Signal.SIGINT) AppError.OK ∧
    stopProcess (stopPlan Signal.SIGINT)
      (fun n => if n = 0 then AttemptResult.timedOut else AttemptResult.delivered)
      true = StopResult.ret (some Signal.SIGTERM) AppError.OK ∧
    stopProcess (stopPlan Signal.SIGINT)
      (fun n => if n < 2 then AttemptResult.timedOut else AttemptResult.delivered)
      true = StopResult.ret (some Signal.SIGHUP) AppError.OK ∧
    stopProcess (stopPlan Signal.SIGINT) (fun _ => AttemptResult.timedOut) true =
      StopResult.ret none AppError.FailedToKillApp := by
  refine ⟨?_, ?_, ?_, ?_⟩
  · exact (stopPlan_escalation Signal.SIGINT (fun _ => AttemptResult.delivered)
      true).1 rfl
  · exact (stopPlan_escalation Signal.SIGINT
      (fun n => if n = 0 then AttemptResult.timedOut else AttemptResult.delivered)
      true).2.1 (by decide) (by decide)
  · exact (stopPlan_escalation Signal.SIGINT
      (fun n => if n < 2 then AttemptResult.timedOut else AttemptResult.delivered)
      true).2.2.1 (by decide) (by decide) (by decide)
  · have h := (stopPlan_escalation Signal.SIGINT (fun _ => AttemptResult.timedOut)
      true).2.2.2 (by decide) (by decide) (by decide)
    simpa using h

/-- C6 evidence: when `cmd.Start()` fails, `runCommand` ends in the abnormal
`log.Fatal` termination (exit status 1, bypassing cleanup) for every event,
and that outcome is not a normal return of any `AppError` — in particular it
is not `CannotStartApp`, which the code can never produce. -/
theorem runCommand_startFail (ev : RunEvent) (oracle : Nat → AttemptResult)
    (killOk : Bool) :
    runCommand false ev oracle killOk = RunResult.fatal ∧
    ∀ e : AppError, RunResult.fatal ≠ RunResult.exit e := by
  refine ⟨rfl, fun e h => ?_⟩
  exact RunResult.noConfusion h

/-- C7: when the child exits on its own before any signal is observed, the
run reports `OK` for exit code 0 and `AppStoppedWithError` otherwise, and the
result does not depend on the escalation oracle or the kill outcome — no
escalation is performed in this branch. -/
theorem runCommand_childExit (code : Nat)
    (oracle oracle' : Nat → AttemptResult) (killOk killOk' : Bool) :
    runCommand true (RunEvent.childExited code) oracle killOk =
      RunResult.exit
        (if code = 0 then AppError.OK else AppError.AppStoppedWithError) ∧
    runCommand true (RunEvent.childExited code) oracle killOk =
      runCommand true (RunEvent.childExited code) oracle' killOk' := by
  constructor <;> by_cases h : code = 0 <;> simp [runCommand, h]

/-- C8 evidence: for `["--", "/bin/false"]`, flag parsing does NOT pass the
tokens after `--` through unchanged: the child is executed with an extra
empty-string argument (`run "/bin/false" [""]`, not `run "/bin/false" []`),
because `eatFlag` returns its `remaining` buffer at the full input length,
padded with zero-value strings, instead of trimming it to the tokens
actually copied. -/
theorem doubleDash_extra_empty_arg :
    mainCommand ["--", "/bin/false"] = MainResult.run "/bin/false" [""] ∧
    MainResult.run "/bin/false" [""] ≠ MainResult.run "/bin/false" [] := by
  constructor
  · decide
  · decide

/-- C9 evidence: for `["--init-log", "log.txt", "/bin/app"]` — the advertised
`--init-log FILE COMMAND` usage, with neither `FILE` nor `COMMAND` starting
with a dash — flag parsing does not complete: the parameter loop of
`eatFlag` runs its counter up to `availCount` instead of `paramCount` and
writes `params[1]` on the 1-element parameter array, a runtime
index-out-of-range panic. -/
theorem initLog_index_panic :
    mainCommand ["--init-log", "log.txt", "/bin/app"] = MainResult.panic := by
  decide

/-- C10: `getOr` is total: it returns the element at position `index` when
`0 <= index < len(p)`, and the default for every out-of-range index,
negative ones included. -/
theorem getOr_total (p : List String) (index : Int) (d : String) :
    (∀ h : 0 ≤ index ∧ index < (p.length : Int),
      getOr p index d = p.get ⟨index.toNat, by omega⟩) ∧
    ((index < 0 ∨ (p.length : Int) ≤ index) → getOr p index d = d) := by
  constructor
  · intro h
    have hc : ¬(index < 0 ∨ (p.length : Int) ≤ index) := by omega
    simp only [getOr, dif_neg hc]
  · intro h
    simp only [getOr, dif_pos h]

/-- Witness for C10: an in-range index, an index past the end, and a
negative index. -/
theorem getOr_total_witness :
    getOr ["a", "b"] 1 "d" = ["a", "b"].get ⟨(1 : Int).toNat, by decide⟩ ∧
    getOr ["a", "b"] 5 "d" = "d" ∧
    getOr ["a", "b"] (-1) "d" = "d" :=
  ⟨(getOr_total ["a", "b"] 1 "d").1 (by constructor <;> decide),
   (getOr_total ["a", "b"] 5 "d").2 (by right; decide),
   (getOr_total ["a", "b"] (-1) "d").2 (by left; decide)⟩

end DockerRunApp
